import Mathlib

/-!
Verification of the spotify-art-getter server core (src/server.mjs).

The JavaScript source is shallowly embedded: pure helpers become Lean
functions on `String`/`List Char`; the process-wide token cache becomes
explicit state passing; every network interaction (the token exchange,
the per-type catalog lookup, the two image fetches of the enhance
pipeline) is a parameter describing the upstream's answer, so the
handlers become total functions from request plus upstream behaviour to
the HTTP response they produce.  JavaScript numbers used here are
integers (epoch seconds, pixel sizes, HTTP statuses, JPEG quality), so
they are embedded as `Int`/`Nat`; absent values (`undefined`/`null`)
are `Option`; JavaScript string truthiness (`!s` is true for `""` and
for an absent value) is made explicit.
-/

namespace SpotifyArtGetter

/-- Embeds JavaScript string truthiness: an absent value and the empty
string are falsy, every other string is truthy. -/
def jsTruthyStr : Option String → Bool
  | none => false
  | some s => !(s == "")

/-- Embeds `String.prototype.trim`: drop whitespace from both ends. -/
def jsTrim (s : String) : String :=
  String.mk (((s.data.dropWhile Char.isWhitespace).reverse.dropWhile
    Char.isWhitespace).reverse)

/-- Embeds `String.prototype.toLowerCase` on the ASCII strings this
program lowercases. -/
def jsToLower (s : String) : String :=
  String.mk (s.data.map Char.toLower)

/-- Character class `[a-z_]` of the compact-URI regex, applied under the
`i` flag, i.e. including `A`–`Z`. -/
def isTypeChar (c : Char) : Bool :=
  (('a' ≤ c && c ≤ 'z') || ('A' ≤ c && c ≤ 'Z') || c == '_')

/-- Character class `[A-Za-z0-9]` of the compact-URI regex. -/
def isAlnumChar (c : Char) : Bool :=
  (('a' ≤ c && c ≤ 'z') || ('A' ≤ c && c ≤ 'Z') || ('0' ≤ c && c ≤ '9'))

/-- Case-insensitive literal match: consume `pat` from the front of the
input, comparing characters after `Char.toLower`, and return the rest. -/
def matchCI : List Char → List Char → Option (List Char)
  | [], s => some s
  | _ :: _, [] => none
  | p :: ps, c :: cs => if p.toLower == c.toLower then matchCI ps cs else none

/-- Embeds the regex test `^spotify:([a-z_]+):([A-Za-z0-9]+)$` with the
`i` flag (src/server.mjs line 69): the literal scheme is matched
case-insensitively, group 1 is a nonempty `[a-z_]+` token (greedy, which
is exact because `:` is not a type character), group 2 a nonempty
alphanumeric token reaching the end of the string.  Returns the two
capture groups. -/
def uriMatch (s : List Char) : Option (List Char × List Char) :=
  match matchCI "spotify:".data s with
  | none => none
  | some rest =>
    let t := rest.takeWhile isTypeChar
    match t, rest.dropWhile isTypeChar with
    | [], _ => none
    | _ :: _, ':' :: idPart =>
      if idPart ≠ [] && idPart.all isAlnumChar then some (t, idPart) else none
    | _ :: _, _ => none

/-- A parsed `{type, id}` pair (the `ParsedLink` of the data model). -/
structure ParsedLink where
  type : String
  id : String
deriving DecidableEq, Repr

/-- The two fields of a WHATWG `URL` object the source reads (hostname
and pathname).  `new URL(...)` itself is platform code, so URL parsing
is passed in as a function returning `none` where the constructor would
throw. -/
structure UrlParts where
  hostname : String
  pathname : String
deriving DecidableEq, Repr

/-- Literal list-prefix test, used by the substring test below. -/
def isPrefixCharList : List Char → List Char → Bool
  | [], _ => true
  | _ :: _, [] => false
  | a :: as, b :: bs => if a == b then isPrefixCharList as bs else false

/-- Substring containment on character lists, embedding an unanchored
regex test for a literal pattern. -/
def containsSub (pat : List Char) : List Char → Bool
  | [] => isPrefixCharList pat []
  | c :: cs => isPrefixCharList pat (c :: cs) || containsSub pat cs

/-- The hostname test `/\.spotify\./.test(url.hostname)` of
src/server.mjs line 76: the hostname must contain the literal substring
`.spotify.`. -/
def hostnameOk (hostname : String) : Bool :=
  containsSub ".spotify.".data hostname.data

/-- Embeds `String.prototype.split` on a single-character separator. -/
def splitOnChar (sep : Char) : List Char → List (List Char)
  | [] => [[]]
  | c :: cs =>
    if c == sep then [] :: splitOnChar sep cs
    else
      match splitOnChar sep cs with
      | [] => [[c]]
      | h :: t => (c :: h) :: t

/-- The hierarchical-URL branch of `parseSpotifyLink` (src/server.mjs
lines 76–85), acting on an already-constructed URL: reject hostnames
without `.spotify.`; split the pathname on `/`, dropping empty segments
(`filter(Boolean)`); with at least two segments, the first (lowercased)
is the type and the second, cut at the first `?`, is the id. -/
def urlBranch (u : UrlParts) : Option ParsedLink :=
  if hostnameOk u.hostname then
    match (splitOnChar '/' u.pathname.data).filter (fun seg => seg ≠ []) with
    | t :: i :: _ =>
      some { type := String.mk (t.map Char.toLower),
             id := String.mk (i.takeWhile (fun c => c ≠ '?')) }
    | _ => none
  else none

/-- Embeds `parseSpotifyLink` (src/server.mjs lines 64–90).  `urlOf`
stands for the platform `new URL` constructor: `none` where it would
throw (the `catch` branch), `some` of the hostname/pathname pair
otherwise. -/
def parseSpotifyLink (input : String) (urlOf : String → Option UrlParts) :
    Option ParsedLink :=
  if input == "" then none
  else
    let trimmed := jsTrim input
    match uriMatch trimmed.data with
    | some (t, i) =>
      some { type := String.mk (t.map Char.toLower), id := String.mk i }
    | none =>
      match urlOf trimmed with
      | some u => urlBranch u
      | none => none

/-- The process environment variables the core reads. -/
structure Env where
  SPOTIFY_CLIENT_ID : Option String
  SPOTIFY_CLIENT_SECRET : Option String
  CUTOUT_API_KEY : Option String
deriving Repr

/-- The in-memory token cache (src/server.mjs line 20):
`{ accessToken, expiresAt }`, with `expiresAt` in epoch seconds. -/
structure TokenCache where
  accessToken : Option String
  expiresAt : Int
deriving DecidableEq, Repr

/-- The initial cache value `{ accessToken: null, expiresAt: 0 }`. -/
def initialTokenCache : TokenCache := { accessToken := none, expiresAt := 0 }

/-- The answer of the upstream token endpoint: either a non-ok HTTP
response (status and body text), or an ok JSON body with the
`access_token` and `expires_in` fields (each possibly absent). -/
inductive TokenResp where
  | httpErr (status : Nat) (text : String)
  | ok (access_token : Option String) (expires_in : Option Int)
deriving Repr

/-- Embeds the JavaScript `||` default on a number field:
`undefined` and `0` both fall back to the default. -/
def jsOrInt (v : Option Int) (d : Int) : Int :=
  match v with
  | none => d
  | some n => if n == 0 then d else n

/-- The error message thrown when client credentials are absent
(src/server.mjs line 36). -/
def missingCredsMsg : String :=
  "Missing SPOTIFY_CLIENT_ID or SPOTIFY_CLIENT_SECRET in .env"

/-- Embeds `getAccessToken` (src/server.mjs lines 26–61) with the cache
as explicit state, `now` the value of `nowSeconds()`, and `resp` what
the token endpoint would answer if called.  Returns the value returned
or thrown (`Except`), the cache after the call, and whether the network
was hit.  The cached fast path requires a truthy cached token and
`expiresAt - 30 > now`; otherwise missing credentials throw; otherwise
the exchange result either throws (non-ok) or replaces the whole cache
with expiry `now + (expires_in || 3600)`. -/
def getAccessToken (cache : TokenCache) (now : Int) (env : Env)
    (resp : TokenResp) : Except String (Option String) × TokenCache × Bool :=
  if jsTruthyStr cache.accessToken && decide (cache.expiresAt - 30 > now) then
    (Except.ok cache.accessToken, cache, false)
  else if !(jsTruthyStr env.SPOTIFY_CLIENT_ID &&
            jsTruthyStr env.SPOTIFY_CLIENT_SECRET) then
    (Except.error missingCredsMsg, cache, false)
  else
    match resp with
    | TokenResp.httpErr status text =>
      (Except.error ("Token request failed: " ++ toString status ++ " " ++ text),
       cache, true)
    | TokenResp.ok tok lifetime =>
      let cache' : TokenCache :=
        { accessToken := tok, expiresAt := now + jsOrInt lifetime 3600 }
      (Except.ok cache'.accessToken, cache', true)

/-- One upstream image entry `{url, width, height}`; a dimension the
upstream omitted is `none` (in JavaScript, `Number(undefined)` is `NaN`
and never equals 640). -/
structure ResourceImage where
  url : String
  width : Option Int
  height : Option Int
deriving DecidableEq, Repr

/-- Embeds the `only640` filter (src/server.mjs lines 107–109):
`(imgs || [])` keeps only entries whose width and height both equal
640. -/
def only640 (imgs : Option (List ResourceImage)) : List ResourceImage :=
  (imgs.getD []).filter
    (fun img => img.width == some 640 && img.height == some 640)

/-- An `{name}` entry of an upstream `artists` array. -/
structure ArtistEntry where
  name : String
deriving DecidableEq, Repr

/-- The `album` sub-object of a track response (only its `images` field
is read). -/
structure AlbumRef where
  images : Option (List ResourceImage)
deriving DecidableEq, Repr

/-- The `owner` sub-object of a playlist response. -/
structure OwnerRef where
  display_name : Option String
deriving DecidableEq, Repr

/-- The `show` sub-object of an episode response. -/
structure ShowRef where
  name : Option String
deriving DecidableEq, Repr

/-- The fields of an upstream catalog JSON response that `getImagesFor`
reads.  Each per-type endpoint populates a subset; absent fields are
`none`, matching the `?.` chains of the source. -/
structure CatalogData where
  name : String
  artists : Option (List ArtistEntry)
  album : Option AlbumRef
  images : Option (List ResourceImage)
  owner : Option OwnerRef
  showRef : Option ShowRef
deriving DecidableEq, Repr

/-- The uniform `{title, byline, type, images}` shape (the
`ResourceResult` of the data model); `byline` is `none` where the
source computes `undefined` (a track or album response with no
`artists` array). -/
structure ResourceResult where
  title : String
  byline : Option String
  type : String
  images : List ResourceImage
deriving DecidableEq, Repr

/-- Embeds `d.artists?.map(a => a.name).join(', ')`. -/
def joinedArtists (artists : Option (List ArtistEntry)) : Option String :=
  artists.map (fun as => String.intercalate ", " (as.map ArtistEntry.name))

/-- Embeds the `switch` of `getImagesFor` (src/server.mjs lines
112–169), separated from token acquisition (which its caller threads
explicitly; see `apiCover`).  `fetchData` stands for `fetchJSON` with
the bearer token applied: given the endpoint path it returns the parsed
JSON body, or the error `fetchJSON` would throw.  Unknown types throw
`Unsupported type: ...`. -/
def getImagesFor (type : String) (id : String)
    (fetchData : String → Except String CatalogData) :
    Except String ResourceResult :=
  match type with
  | "track" => do
    let d ← fetchData ("/tracks/" ++ id)
    pure { title := d.name, byline := joinedArtists d.artists,
           type := "track", images := only640 (d.album.bind AlbumRef.images) }
  | "album" => do
    let d ← fetchData ("/albums/" ++ id)
    pure { title := d.name, byline := joinedArtists d.artists,
           type := "album", images := only640 d.images }
  | "artist" => do
    let d ← fetchData ("/artists/" ++ id)
    pure { title := d.name, byline := some "Artist",
           type := "artist", images := only640 d.images }
  | "playlist" => do
    let d ← fetchData ("/playlists/" ++ id)
    pure { title := d.name,
           byline := some (if jsTruthyStr (d.owner.bind OwnerRef.display_name)
             then "By " ++ (d.owner.bind OwnerRef.display_name).getD ""
             else "Playlist"),
           type := "playlist", images := only640 d.images }
  | "episode" => do
    let d ← fetchData ("/episodes/" ++ id)
    pure { title := d.name,
           byline := some (if jsTruthyStr (d.showRef.bind ShowRef.name)
             then "From " ++ (d.showRef.bind ShowRef.name).getD ""
             else "Episode"),
           type := "episode", images := only640 d.images }
  | "show" => do
    let d ← fetchData ("/shows/" ++ id)
    pure { title := d.name, byline := some "Podcast",
           type := "show", images := only640 d.images }
  | _ => Except.error ("Unsupported type: " ++ type)

/-- The response of `GET /api/cover`: the 200 JSON body, or an error
status with its `{error}` payload. -/
inductive CoverResult where
  | success (id : String) (type : String) (title : String)
      (byline : Option String) (images : List ResourceImage)
  | failure (status : Nat) (error : String)
deriving DecidableEq, Repr

/-- Embeds the `GET /api/cover` handler (src/server.mjs lines 172–194).
`query` is the `url` query parameter (`String(url || '')` turns an
absent one into `""`); `urlOf`, `resp` and `fetchData` describe the
platform URL parser and the two upstream services as in the component
embeddings.  An unparseable link answers 400; every error thrown below
(missing credentials, failed token exchange, upstream lookup failure,
unsupported type) is caught by the handler's `catch` and answered as
500 with the error's message.  The token cache after the request is
returned alongside the response. -/
def apiCover (query : Option String) (urlOf : String → Option UrlParts)
    (cache : TokenCache) (now : Int) (env : Env) (resp : TokenResp)
    (fetchData : String → Except String CatalogData) :
    CoverResult × TokenCache :=
  let input := query.getD ""
  match parseSpotifyLink input urlOf with
  | none =>
    (CoverResult.failure 400 "Invalid or unsupported Spotify link/URI.", cache)
  | some parsed =>
    match getAccessToken cache now env resp with
    | (Except.error e, cache', _) => (CoverResult.failure 500 e, cache')
    | (Except.ok _, cache', _) =>
      match getImagesFor parsed.type parsed.id fetchData with
      | Except.error e => (CoverResult.failure 500 e, cache')
      | Except.ok r =>
        (CoverResult.success parsed.id r.type r.title r.byline r.images, cache')

/-- The body of a `POST /api/enhance` request; `quality` is `none` when
absent or not a number (in both cases `Number(quality) || 95` yields
95), `progressive` is `none` when absent. -/
structure EnhanceBody where
  imageUrl : Option String
  quality : Option Int
  progressive : Option Bool
deriving Repr

/-- The outcome of one outbound fetch in the enhance pipeline: the
promise rejected (`threw`, caught by the handler's `catch` as 500), or
an HTTP response that is non-ok (`httpErr`) or ok with a body. -/
inductive FetchOutcome where
  | threw (msg : String)
  | httpErr (status : Nat) (text : String)
  | ok (body : List Nat)
deriving Repr

/-- The response of `POST /api/enhance`: a 200 binary JPEG described by
the sharp options used to produce it (target geometry, JPEG quality,
progressive flag), or an error status with its `{error, details?}`
payload. -/
inductive EnhanceResult where
  | binary (status : Nat) (width : Int) (height : Int) (quality : Int)
      (progressive : Bool)
  | failure (status : Nat) (error : String) (details : Option String)
deriving DecidableEq, Repr

/-- Embeds `Math.max(1, Math.min(100, Number(quality) || 95))`
(src/server.mjs line 238): an absent/non-numeric/zero quality falls
back to 95 before the clamp into [1,100]. -/
def effectiveQuality (quality : Option Int) : Int :=
  max 1 (min 100 (jsOrInt quality 95))

/-- Embeds the `POST /api/enhance` handler (src/server.mjs lines
200–252).  `srcFetch` describes the fetch of the source image,
`transformFetch` the call to the transform service, and `reencode` the
sharp decode of the transform's bytes (errors there are thrown and
caught as 500).  A falsy `imageUrl` or missing API key answers 400; a
non-ok source fetch answers 400 with details; a non-ok transform call
answers 502 with details; a rejected fetch promise or a failed
re-encode answers 500; on success the binary is produced by
`resize(3000, 3000)` and `jpeg({quality, progressive, ...})`. -/
def apiEnhance (body : Option EnhanceBody) (env : Env)
    (srcFetch : FetchOutcome) (transformFetch : FetchOutcome)
    (reencode : List Nat → Except String (List Nat)) : EnhanceResult :=
  let b := body.getD { imageUrl := none, quality := none, progressive := none }
  if !(jsTruthyStr b.imageUrl) then
    EnhanceResult.failure 400 "Missing imageUrl" none
  else if !(jsTruthyStr env.CUTOUT_API_KEY) then
    EnhanceResult.failure 400 "Missing CUTOUT_API_KEY in .env" none
  else
    match srcFetch with
    | FetchOutcome.threw msg => EnhanceResult.failure 500 msg none
    | FetchOutcome.httpErr status text =>
      EnhanceResult.failure 400
        ("Failed to fetch source image (" ++ toString status ++ ")") (some text)
    | FetchOutcome.ok _ =>
      match transformFetch with
      | FetchOutcome.threw msg => EnhanceResult.failure 500 msg none
      | FetchOutcome.httpErr status text =>
        EnhanceResult.failure 502 ("Cutout.pro error: " ++ toString status)
          (some text)
      | FetchOutcome.ok transformed =>
        match reencode transformed with
        | Except.error msg => EnhanceResult.failure 500 msg none
        | Except.ok _ =>
          EnhanceResult.binary 200 3000 3000 (effectiveQuality b.quality)
            (b.progressive.getD false)

/-! ### Helper lemmas -/

theorem matchCI_append (p s : List Char) : matchCI p (p ++ s) = some s := by
  induction p with
  | nil => rfl
  | cons a as ih => simp [matchCI, ih]

theorem takeWhile_all_append (p : Char → Bool) (l : List Char) (d : Char)
    (r : List Char) (hl : l.all p = true) (hd : p d = false) :
    (l ++ d :: r).takeWhile p = l := by
  induction l with
  | nil => simp [List.takeWhile_cons, hd]
  | cons a as ih =>
    simp only [List.all_cons, Bool.and_eq_true] at hl
    simp [List.takeWhile_cons, hl.1, ih hl.2]

theorem dropWhile_all_append (p : Char → Bool) (l : List Char) (d : Char)
    (r : List Char) (hl : l.all p = true) (hd : p d = false) :
    (l ++ d :: r).dropWhile p = d :: r := by
  induction l with
  | nil => simp [List.dropWhile_cons, hd]
  | cons a as ih =>
    simp only [List.all_cons, Bool.and_eq_true] at hl
    simp [List.dropWhile_cons, hl.1, ih hl.2]

theorem dropWhile_eq_self_of_none (p : Char → Bool) (l : List Char)
    (h : ∀ c ∈ l, p c = false) : l.dropWhile p = l := by
  induction l with
  | nil => rfl
  | cons a as ih =>
    simp [List.dropWhile_cons, h a (by simp),
      ih (fun c hc => h c (by simp [hc]))]

theorem not_ws_of_isTypeChar {c : Char} (h : isTypeChar c = true) :
    c.isWhitespace = false := by
  cases hws : c.isWhitespace with
  | false => rfl
  | true =>
    exfalso
    simp [Char.isWhitespace] at hws
    rcases hws with ((h1 | h1) | h1) | h1 <;> subst h1 <;> exact absurd h (by decide)

theorem not_ws_of_isAlnumChar {c : Char} (h : isAlnumChar c = true) :
    c.isWhitespace = false := by
  cases hws : c.isWhitespace with
  | false => rfl
  | true =>
    exfalso
    simp [Char.isWhitespace] at hws
    rcases hws with ((h1 | h1) | h1) | h1 <;> subst h1 <;> exact absurd h (by decide)

theorem jsTrim_eq_self (s : String) (h : ∀ c ∈ s.data, c.isWhitespace = false) :
    jsTrim s = s := by
  obtain ⟨l⟩ := s
  simp only [jsTrim]
  rw [dropWhile_eq_self_of_none _ _ h,
    dropWhile_eq_self_of_none _ _ (fun c hc => h c (List.mem_reverse.mp hc)),
    List.reverse_reverse]

theorem spotifyPrefixChars_not_ws : ∀ c ∈ "spotify:".data,
    c.isWhitespace = false := by decide

theorem uriMatch_groups (tl il : List Char) (htne : tl ≠ [])
    (ht : tl.all isTypeChar = true) (hine : il ≠ [])
    (hi : il.all isAlnumChar = true) :
    uriMatch ("spotify:".data ++ (tl ++ ':' :: il)) = some (tl, il) := by
  have h1 : matchCI "spotify:".data ("spotify:".data ++ (tl ++ ':' :: il)) =
      some (tl ++ ':' :: il) := matchCI_append _ _
  simp only [uriMatch, h1]
  rw [takeWhile_all_append _ _ ':' _ ht (by decide),
    dropWhile_all_append _ _ ':' _ ht (by decide)]
  cases tl with
  | nil => exact absurd rfl htne
  | cons a as => simp [hine, hi]

/-! ### Claim C5 -/

/-- Claim C5 (confirmed): every compact URI `spotify:type:id` — type a
nonempty lowercase-letter/underscore token matched case-insensitively,
id nonempty alphanumeric — parses to exactly the lowercased type and
the unchanged id, for any behaviour of the platform URL parser; and
every input whose scheme is not the recognized compact prefix
(`spotify:`, case-insensitive) and that the URL parser does not resolve
to a provider-family hostname yields `none`, not an error. -/
theorem c5_compact_uri :
    (∀ (t i : String) (urlOf : String → Option UrlParts),
      t.data ≠ [] → t.data.all isTypeChar = true →
      i.data ≠ [] → i.data.all isAlnumChar = true →
      parseSpotifyLink ("spotify:" ++ t ++ ":" ++ i) urlOf =
        some { type := jsToLower t, id := i })
    ∧ (∀ (input : String) (urlOf : String → Option UrlParts),
      matchCI "spotify:".data (jsTrim input).data = none →
      (∀ u, urlOf (jsTrim input) = some u → hostnameOk u.hostname = false) →
      parseSpotifyLink input urlOf = none) := by
  constructor
  · intro t i urlOf htne ht hine hi
    obtain ⟨tl⟩ := t
    obtain ⟨il⟩ := i
    simp only at htne ht hine hi
    have hdata : ("spotify:" ++ String.mk tl ++ ":" ++ String.mk il).data =
        "spotify:".data ++ (tl ++ ':' :: il) := by
      show (("spotify:".data ++ tl) ++ [':']) ++ il =
        "spotify:".data ++ (tl ++ ':' :: il)
      simp
    have hne' : ("spotify:" ++ String.mk tl ++ ":" ++ String.mk il) ≠ "" := by
      intro h
      have h0 : ("spotify:" ++ String.mk tl ++ ":" ++ String.mk il).data =
          ([] : List Char) := congrArg String.data h
      rw [hdata] at h0
      exact absurd (List.append_eq_nil.mp h0).1 (by decide)
    have hws : ∀ c ∈ ("spotify:" ++ String.mk tl ++ ":" ++ String.mk il).data,
        c.isWhitespace = false := by
      rw [hdata]
      intro c hc
      rcases List.mem_append.mp hc with hc | hc
      · exact spotifyPrefixChars_not_ws c hc
      · rcases List.mem_append.mp hc with hc | hc
        · exact not_ws_of_isTypeChar (List.all_eq_true.mp ht c hc)
        · rcases List.mem_cons.mp hc with rfl | hc
          · decide
          · exact not_ws_of_isAlnumChar (List.all_eq_true.mp hi c hc)
    have htrim : jsTrim ("spotify:" ++ String.mk tl ++ ":" ++ String.mk il) =
        "spotify:" ++ String.mk tl ++ ":" ++ String.mk il :=
      jsTrim_eq_self _ hws
    have hum : uriMatch
        (jsTrim ("spotify:" ++ String.mk tl ++ ":" ++ String.mk il)).data =
        some (tl, il) := by
      rw [htrim, hdata]
      exact uriMatch_groups tl il htne ht hine hi
    simp [parseSpotifyLink, beq_eq_false_iff_ne.mpr hne', hum, jsToLower]
  · intro input urlOf hm hhost
    by_cases hin : input = ""
    · simp [parseSpotifyLink, hin]
    · have hum : uriMatch (jsTrim input).data = none := by
        simp only [uriMatch, hm]
      simp only [parseSpotifyLink, beq_eq_false_iff_ne.mpr hin,
        Bool.false_eq_true, if_false, hum]
      cases hu : urlOf (jsTrim input) with
      | none => rfl
      | some u => simp [urlBranch, hhost u hu]

/-- Witness for C5: the compact URI `spotify:Track:abc123` parses to
`{type := "track", id := "abc123"}`, and `deezer:track:abc` (an
unrecognized scheme, not resolving to a provider hostname) parses to
`none`. -/
theorem c5_witness :
    parseSpotifyLink ("spotify:" ++ "Track" ++ ":" ++ "abc123")
        (fun _ => none) =
      some { type := jsToLower "Track", id := "abc123" }
    ∧ parseSpotifyLink "deezer:track:abc" (fun _ => none) = none :=
  ⟨c5_compact_uri.1 "Track" "abc123" (fun _ => none)
      (by decide) (by decide) (by decide) (by decide),
    c5_compact_uri.2 "deezer:track:abc" (fun _ => none) (by decide)
      (fun u h => absurd h (by simp))⟩

/-! ### Claim C6 -/

/-- Claim C6 (confirmed): whenever the input is not a compact URI and
the platform URL parser yields a URL whose hostname passes the
provider-host check and whose path splits into at least two non-empty
segments, the resolver returns the first segment lowercased as the type
and the second segment cut at the first `?` as the id (the id keeps its
case); and whenever the input is not a compact URI and the URL parser
throws (`none`), the resolver returns `none` rather than an error. -/
theorem c6_url_branch :
    (∀ (input : String) (urlOf : String → Option UrlParts) (u : UrlParts)
        (t i : List Char) (rest : List (List Char)),
      input ≠ "" →
      uriMatch (jsTrim input).data = none →
      urlOf (jsTrim input) = some u →
      hostnameOk u.hostname = true →
      (splitOnChar '/' u.pathname.data).filter (fun seg => seg ≠ []) =
        t :: i :: rest →
      parseSpotifyLink input urlOf =
        some { type := String.mk (t.map Char.toLower),
               id := String.mk (i.takeWhile (fun c => c ≠ '?')) })
    ∧ (∀ (input : String) (urlOf : String → Option UrlParts),
      uriMatch (jsTrim input).data = none →
      urlOf (jsTrim input) = none →
      parseSpotifyLink input urlOf = none) := by
  constructor
  · intro input urlOf u t i rest hne hum hurl hhost hsegs
    simp only [parseSpotifyLink, beq_eq_false_iff_ne.mpr hne,
      Bool.false_eq_true, if_false, hum, hurl]
    simp only [ne_eq, decide_not] at hsegs
    simp [urlBranch, hhost, hsegs]
  · intro input urlOf hum hurl
    by_cases hin : input = ""
    · simp [parseSpotifyLink, hin]
    · simp only [parseSpotifyLink, beq_eq_false_iff_ne.mpr hin,
        Bool.false_eq_true, if_false, hum, hurl]

/-- Witness for C6: `https://open.spotify.com/TRACK/Abc1?si=2` (whose
URL object has hostname `open.spotify.com` and pathname
`/TRACK/Abc1?si=2`) resolves to `{type := "track", id := "Abc1"}`, and
`not a url` (on which the URL constructor throws) resolves to
`none`. -/
theorem c6_witness :
    parseSpotifyLink "https://open.spotify.com/TRACK/Abc1?si=2"
        (fun s => if s == "https://open.spotify.com/TRACK/Abc1?si=2" then
          some { hostname := "open.spotify.com", pathname := "/TRACK/Abc1?si=2" }
          else none) =
      some { type := String.mk ("TRACK".data.map Char.toLower),
             id := String.mk ("Abc1?si=2".data.takeWhile (fun c => c ≠ '?')) }
    ∧ parseSpotifyLink "not a url" (fun _ => none) = none :=
  ⟨c6_url_branch.1 "https://open.spotify.com/TRACK/Abc1?si=2" _
      { hostname := "open.spotify.com", pathname := "/TRACK/Abc1?si=2" }
      "TRACK".data "Abc1?si=2".data []
      (by decide) (by decide) (by decide) (by decide) (by decide),
    c6_url_branch.2 "not a url" (fun _ => none) (by decide) (by decide)⟩

/-! ### Claim C10 -/

/-- Claim C10 (confirmed): the hierarchical branch accepts a URL only
when its hostname contains the literal substring `.spotify.` (dot on
both sides): any URL failing that test yields `none`; in particular the
apex hostname `spotify.com` fails the test even though it belongs to
the provider's domain family, so a URL input resolving to that hostname
parses to `none`. -/
theorem c10_host_check :
    (∀ u : UrlParts, hostnameOk u.hostname = false → urlBranch u = none)
    ∧ hostnameOk "spotify.com" = false
    ∧ hostnameOk "open.spotify.com" = true
    ∧ (∀ urlOf : String → Option UrlParts,
      urlOf (jsTrim "https://spotify.com/track/abc") =
        some { hostname := "spotify.com", pathname := "/track/abc" } →
      parseSpotifyLink "https://spotify.com/track/abc" urlOf = none) := by
  refine ⟨?_, by decide, by decide, ?_⟩
  · intro u h
    simp [urlBranch, h]
  · intro urlOf hurl
    have hum : uriMatch (jsTrim "https://spotify.com/track/abc").data = none :=
      by decide
    simp only [parseSpotifyLink, hum, hurl]
    simp [urlBranch, show hostnameOk "spotify.com" = false by decide]

/-- Witness for C10: a URL object with hostname `sptfy.example` is
rejected by the branch, and the concrete apex-domain input
`https://spotify.com/track/abc` parses to `none`. -/
theorem c10_witness :
    urlBranch { hostname := "sptfy.example", pathname := "/track/abc" } = none
    ∧ parseSpotifyLink "https://spotify.com/track/abc"
        (fun _ => some { hostname := "spotify.com", pathname := "/track/abc" })
        = none :=
  ⟨c10_host_check.1 { hostname := "sptfy.example", pathname := "/track/abc" }
      (by decide),
    c10_host_check.2.2.2
      (fun _ => some { hostname := "spotify.com", pathname := "/track/abc" })
      (by decide)⟩

/-! ### Claim C7 -/

/-- Claim C7 (confirmed): `only640` retains exactly the entries whose
width and height both equal 640 — near-square, other-sized and
dimension-missing entries are discarded — and when no entry qualifies
the result is the empty sequence (the function is total: no error is
possible). -/
theorem c7_only640 :
    (∀ (imgs : Option (List ResourceImage)) (img : ResourceImage),
      img ∈ only640 imgs ↔
        img ∈ imgs.getD [] ∧ img.width = some 640 ∧ img.height = some 640)
    ∧ (∀ imgs : Option (List ResourceImage),
      (∀ img ∈ imgs.getD [],
        ¬(img.width = some 640 ∧ img.height = some 640)) →
      only640 imgs = []) := by
  constructor
  · intro imgs img
    simp [only640, List.mem_filter, and_assoc]
  · intro imgs h
    simp only [only640, List.filter_eq_nil_iff]
    intro img hm
    have := h img hm
    simp only [Bool.and_eq_true, beq_iff_eq]
    tauto

/-- Witness for C7: on a mixed upstream list, only the exact 640×640
entry survives, and a list with a near-square 640×639 entry and a
dimension-missing entry filters to the empty sequence. -/
theorem c7_witness :
    ((⟨"a", some 640, some 640⟩ : ResourceImage) ∈ only640 (some
        [⟨"a", some 640, some 640⟩, ⟨"b", some 640, some 300⟩,
          ⟨"c", none, some 640⟩])
      ↔ (⟨"a", some 640, some 640⟩ : ResourceImage) ∈
          [(⟨"a", some 640, some 640⟩ : ResourceImage),
            ⟨"b", some 640, some 300⟩, ⟨"c", none, some 640⟩]
          ∧ (some 640 : Option Int) = some 640
          ∧ (some 640 : Option Int) = some 640)
    ∧ only640 (some [⟨"d", some 640, some 639⟩, ⟨"e", none, none⟩]) = [] :=
  ⟨c7_only640.1 (some [⟨"a", some 640, some 640⟩, ⟨"b", some 640, some 300⟩,
      ⟨"c", none, some 640⟩]) ⟨"a", some 640, some 640⟩,
    c7_only640.2 (some [⟨"d", some 640, some 639⟩, ⟨"e", none, none⟩])
      (by decide)⟩

/-! ### Claim C9 -/

/-- Claim C9 (confirmed): whenever the cache holds a (truthy) token and
the current time is strictly before its expiry minus the 30-second
buffer, `getAccessToken` returns that token unchanged, leaves the cache
untouched and performs no network call, for any environment and any
would-be behaviour of the token endpoint. -/
theorem c9_cached_reuse :
    ∀ (cache : TokenCache) (now : Int) (env : Env) (resp : TokenResp)
      (t : String),
      cache.accessToken = some t → t ≠ "" →
      cache.expiresAt - 30 > now →
      getAccessToken cache now env resp = (Except.ok (some t), cache, false) := by
  intro cache now env resp t htok htne hexp
  simp [getAccessToken, htok, jsTruthyStr, htne, hexp]

/-- Witness for C9: a cache holding `tok` expiring at 2000 is returned
unchanged at time 1000 with no network call, whatever the endpoint
would have answered. -/
theorem c9_witness :
    getAccessToken { accessToken := some "tok", expiresAt := 2000 } 1000
        { SPOTIFY_CLIENT_ID := none, SPOTIFY_CLIENT_SECRET := none,
          CUTOUT_API_KEY := none }
        (TokenResp.httpErr 500 "endpoint would fail") =
      (Except.ok (some "tok"),
        { accessToken := some "tok", expiresAt := 2000 }, false) :=
  c9_cached_reuse { accessToken := some "tok", expiresAt := 2000 } 1000
    { SPOTIFY_CLIENT_ID := none, SPOTIFY_CLIENT_SECRET := none,
      CUTOUT_API_KEY := none }
    (TokenResp.httpErr 500 "endpoint would fail") "tok"
    rfl (by decide) (by decide)

/-! ### Claim C8 -/

/-- Claim C8 (confirmed): for each of the six resource types, given the
upstream lookup answers with data `d`, the fetcher projects exactly per
the spec table — title is the resource name in every case; byline is
the joined artist names for track and album, the fixed label `Artist`
for artist, `By {owner display name}` (falling back to `Playlist` when
absent) for playlist, `From {parent show name}` (falling back to
`Episode` when absent) for episode, and `Podcast` for show; the image
source is the parent album's image set for track and the resource's own
image set otherwise, always filtered to the canonical square size. -/
theorem c8_projection :
    ∀ (id : String) (d : CatalogData),
      getImagesFor "track" id (fun _ => Except.ok d) =
        Except.ok { title := d.name, byline := joinedArtists d.artists,
                    type := "track",
                    images := only640 (d.album.bind AlbumRef.images) }
      ∧ getImagesFor "album" id (fun _ => Except.ok d) =
        Except.ok { title := d.name, byline := joinedArtists d.artists,
                    type := "album", images := only640 d.images }
      ∧ getImagesFor "artist" id (fun _ => Except.ok d) =
        Except.ok { title := d.name, byline := some "Artist",
                    type := "artist", images := only640 d.images }
      ∧ getImagesFor "playlist" id (fun _ => Except.ok d) =
        Except.ok { title := d.name,
                    byline := some
                      (if jsTruthyStr (d.owner.bind OwnerRef.display_name)
                        then "By " ++ (d.owner.bind OwnerRef.display_name).getD ""
                        else "Playlist"),
                    type := "playlist", images := only640 d.images }
      ∧ getImagesFor "episode" id (fun _ => Except.ok d) =
        Except.ok { title := d.name,
                    byline := some
                      (if jsTruthyStr (d.showRef.bind ShowRef.name)
                        then "From " ++ (d.showRef.bind ShowRef.name).getD ""
                        else "Episode"),
                    type := "episode", images := only640 d.images }
      ∧ getImagesFor "show" id (fun _ => Except.ok d) =
        Except.ok { title := d.name, byline := some "Podcast",
                    type := "show", images := only640 d.images } := by
  intro id d
  refine ⟨rfl, rfl, rfl, rfl, rfl, rfl⟩

/-! ### Claim C3 -/

/-- Counterexample to C3 as stated: with an empty cache, credentials
present and the token endpoint declaring a 10-second lifetime, the
fresh token is returned to the caller with recorded expiry `now + 10`,
which is not more than 30 seconds in the future — the safety margin
does not hold for every upstream-declared lifetime. -/
theorem c3_counterexample :
    getAccessToken initialTokenCache 1000
        { SPOTIFY_CLIENT_ID := some "id", SPOTIFY_CLIENT_SECRET := some "sec",
          CUTOUT_API_KEY := none }
        (TokenResp.ok (some "tok") (some 10)) =
      (Except.ok (some "tok"),
        { accessToken := some "tok", expiresAt := 1010 }, true)
    ∧ ¬((1010 : Int) - 30 > 1000) := by
  constructor
  · rfl
  · decide

/-- Claim C3 (amended): every token value `getAccessToken` returns
satisfies the 30-second margin — its recorded expiry minus 30 exceeds
the current time — except when it was just obtained from a credential
exchange whose effective lifetime (the upstream-declared value, with
absent or zero defaulting to 3600) is at most 30 seconds; in that case
the expiry is exactly `now` plus that lifetime. -/
theorem c3_amended :
    ∀ (cache : TokenCache) (now : Int) (env : Env) (resp : TokenResp)
      (tok : Option String) (cache' : TokenCache) (net : Bool),
      getAccessToken cache now env resp = (Except.ok tok, cache', net) →
      cache'.expiresAt - 30 > now ∨
        (net = true ∧ ∃ at_ ei, resp = TokenResp.ok at_ ei ∧
          jsOrInt ei 3600 ≤ 30 ∧ cache'.expiresAt = now + jsOrInt ei 3600) := by
  intro cache now env resp tok cache' net h
  unfold getAccessToken at h
  by_cases hfast : (jsTruthyStr cache.accessToken &&
      decide (cache.expiresAt - 30 > now)) = true
  · rw [if_pos hfast] at h
    simp only [Prod.mk.injEq] at h
    obtain ⟨-, hc, -⟩ := h
    left
    rw [← hc]
    exact of_decide_eq_true ((Bool.and_eq_true _ _).mp hfast).2
  · rw [if_neg hfast] at h
    by_cases hcred : (!(jsTruthyStr env.SPOTIFY_CLIENT_ID &&
        jsTruthyStr env.SPOTIFY_CLIENT_SECRET)) = true
    · rw [if_pos hcred] at h
      simp at h
    · rw [if_neg hcred] at h
      cases resp with
      | httpErr status text => simp at h
      | ok at_ ei =>
        simp only [Prod.mk.injEq] at h
        obtain ⟨-, hc, hnet⟩ := h
        rcases le_or_lt (jsOrInt ei 3600) 30 with hle | hgt
        · exact Or.inr ⟨hnet.symm, at_, ei, rfl, hle, by rw [← hc]⟩
        · left
          rw [← hc]
          show now + jsOrInt ei 3600 - 30 > now
          omega

/-- Witness for C3 (amended): a cached token expiring at 2000, reused
at time 1000, satisfies the margin disjunct. -/
theorem c3_amended_witness :
    (2000 : Int) - 30 > 1000 ∨
      (false = true ∧ ∃ at_ ei,
        TokenResp.httpErr 500 "down" = TokenResp.ok at_ ei ∧
        jsOrInt ei 3600 ≤ 30 ∧ (2000 : Int) = 1000 + jsOrInt ei 3600) :=
  c3_amended { accessToken := some "tok", expiresAt := 2000 } 1000
    { SPOTIFY_CLIENT_ID := none, SPOTIFY_CLIENT_SECRET := none,
      CUTOUT_API_KEY := none }
    (TokenResp.httpErr 500 "down") (some "tok")
    { accessToken := some "tok", expiresAt := 2000 } false rfl

/-! ### Claim C1 -/

/-- Counterexample to C1 as stated: with both client credentials absent
and an empty token cache, the parseable request
`/api/cover?url=spotify:track:abc` is answered with status 500 carrying
the missing-credential message — 500 is not in the 400 class, so the
missing-credential condition does not surface as a 400-class
response. -/
theorem c1_counterexample :
    (apiCover (some "spotify:track:abc") (fun _ => none) initialTokenCache
        1000
        { SPOTIFY_CLIENT_ID := none, SPOTIFY_CLIENT_SECRET := none,
          CUTOUT_API_KEY := none }
        (TokenResp.ok none none) (fun _ => Except.error "unreached")).1 =
      CoverResult.failure 500 missingCredsMsg
    ∧ ¬(400 ≤ 500 ∧ 500 < 500) := by
  exact ⟨rfl, by omega⟩

/-- Claim C1 (amended): while the client credentials are absent and the
cache holds no usable token (no truthy cached value still inside the
30-second buffer), every `GET /api/cover` request is answered with a
structured payload and never an unhandled throw, and the status is tied
to the parse outcome: exactly when the link does not parse, the
response is 400 with the validation message, and exactly when it
parses, the response is 500 — not a 400-class status — carrying the
missing-credential (`ConfigError`) message, because the handler's
catch-all maps every thrown error to 500. -/
theorem c1_amended :
    ∀ (query : Option String) (urlOf : String → Option UrlParts)
      (cache : TokenCache) (now : Int) (env : Env) (resp : TokenResp)
      (fetchData : String → Except String CatalogData),
      (jsTruthyStr env.SPOTIFY_CLIENT_ID &&
        jsTruthyStr env.SPOTIFY_CLIENT_SECRET) = false →
      (jsTruthyStr cache.accessToken &&
        decide (cache.expiresAt - 30 > now)) = false →
      (parseSpotifyLink (query.getD "") urlOf = none →
        (apiCover query urlOf cache now env resp fetchData).1 =
          CoverResult.failure 400 "Invalid or unsupported Spotify link/URI.")
      ∧ (∀ parsed : ParsedLink,
        parseSpotifyLink (query.getD "") urlOf = some parsed →
        (apiCover query urlOf cache now env resp fetchData).1 =
          CoverResult.failure 500 missingCredsMsg) := by
  intro query urlOf cache now env resp fetchData hcred hcache
  constructor
  · intro hp
    unfold apiCover
    simp only [hp]
  · intro parsed hp
    unfold apiCover
    simp only [hp, getAccessToken, hcache, Bool.false_eq_true, if_false,
      hcred, Bool.not_false, if_true]

/-- Witness for C1 (amended): with credentials absent and an empty
cache, the unparseable input `not a spotify link` is answered 400 with
the validation message, and the parseable input `spotify:track:abc` is
answered 500 with the missing-credential message. -/
theorem c1_amended_witness :
    (apiCover (some "not a spotify link") (fun _ => none) initialTokenCache
        1000
        { SPOTIFY_CLIENT_ID := none, SPOTIFY_CLIENT_SECRET := none,
          CUTOUT_API_KEY := none }
        (TokenResp.ok none none) (fun _ => Except.error "unreached")).1 =
      CoverResult.failure 400 "Invalid or unsupported Spotify link/URI."
    ∧ (apiCover (some "spotify:track:abc") (fun _ => none) initialTokenCache
        1000
        { SPOTIFY_CLIENT_ID := none, SPOTIFY_CLIENT_SECRET := none,
          CUTOUT_API_KEY := none }
        (TokenResp.ok none none) (fun _ => Except.error "unreached")).1 =
      CoverResult.failure 500 missingCredsMsg :=
  ⟨(c1_amended (some "not a spotify link") (fun _ => none) initialTokenCache
      1000
      { SPOTIFY_CLIENT_ID := none, SPOTIFY_CLIENT_SECRET := none,
        CUTOUT_API_KEY := none }
      (TokenResp.ok none none) (fun _ => Except.error "unreached")
      rfl rfl).1 (by decide),
    (c1_amended (some "spotify:track:abc") (fun _ => none) initialTokenCache
      1000
      { SPOTIFY_CLIENT_ID := none, SPOTIFY_CLIENT_SECRET := none,
        CUTOUT_API_KEY := none }
      (TokenResp.ok none none) (fun _ => Except.error "unreached")
      rfl rfl).2 { type := "track", id := "abc" } (by decide)⟩

/-! ### Claim C2 -/

/-- Counterexample to C2 as stated: with input and configuration
present, a source-image fetch that returns a non-success response (404)
is answered with status 400 (with details), not with the 500 the claim
assigns to source-fetch failure. -/
theorem c2_counterexample :
    apiEnhance (some ⟨some "https://x/img.jpg", none, none⟩)
      { SPOTIFY_CLIENT_ID := none, SPOTIFY_CLIENT_SECRET := none,
        CUTOUT_API_KEY := some "key" }
      (FetchOutcome.httpErr 404 "not found") (FetchOutcome.ok [])
      (fun b => Except.ok b) =
      EnhanceResult.failure 400 "Failed to fetch source image (404)"
        (some "not found")
    ∧ (400 : Nat) ≠ 500 := by
  exact ⟨rfl, by omega⟩

/-- Claim C2 (amended): `POST /api/enhance` distinguishes failure
domains as: 400 for missing input, missing configuration, and a
non-success source-image response (the last with `details`); 502 with
`details` when the transform-service call returns a non-success
response; and 500 when either fetch promise — the source-image fetch or
the transform-service call — rejects (network-level failure), or the
transformed bytes cannot be re-encoded. -/
theorem c2_amended :
    (∀ (b : EnhanceBody) (env : Env) (sf tf : FetchOutcome)
        (re : List Nat → Except String (List Nat)),
      jsTruthyStr b.imageUrl = false →
      apiEnhance (some b) env sf tf re =
        EnhanceResult.failure 400 "Missing imageUrl" none)
    ∧ (∀ (b : EnhanceBody) (env : Env) (sf tf : FetchOutcome)
        (re : List Nat → Except String (List Nat)),
      jsTruthyStr b.imageUrl = true →
      jsTruthyStr env.CUTOUT_API_KEY = false →
      apiEnhance (some b) env sf tf re =
        EnhanceResult.failure 400 "Missing CUTOUT_API_KEY in .env" none)
    ∧ (∀ (b : EnhanceBody) (env : Env) (tf : FetchOutcome)
        (re : List Nat → Except String (List Nat)) (s : Nat) (t : String),
      jsTruthyStr b.imageUrl = true →
      jsTruthyStr env.CUTOUT_API_KEY = true →
      apiEnhance (some b) env (FetchOutcome.httpErr s t) tf re =
        EnhanceResult.failure 400
          ("Failed to fetch source image (" ++ toString s ++ ")") (some t))
    ∧ (∀ (b : EnhanceBody) (env : Env)
        (re : List Nat → Except String (List Nat)) (src : List Nat)
        (s : Nat) (t : String),
      jsTruthyStr b.imageUrl = true →
      jsTruthyStr env.CUTOUT_API_KEY = true →
      apiEnhance (some b) env (FetchOutcome.ok src)
          (FetchOutcome.httpErr s t) re =
        EnhanceResult.failure 502 ("Cutout.pro error: " ++ toString s)
          (some t))
    ∧ (∀ (b : EnhanceBody) (env : Env)
        (re : List Nat → Except String (List Nat))
        (src tbuf : List Nat) (m : String),
      jsTruthyStr b.imageUrl = true →
      jsTruthyStr env.CUTOUT_API_KEY = true →
      re tbuf = Except.error m →
      apiEnhance (some b) env (FetchOutcome.ok src)
          (FetchOutcome.ok tbuf) re =
        EnhanceResult.failure 500 m none)
    ∧ (∀ (b : EnhanceBody) (env : Env) (tf : FetchOutcome)
        (re : List Nat → Except String (List Nat)) (m : String),
      jsTruthyStr b.imageUrl = true →
      jsTruthyStr env.CUTOUT_API_KEY = true →
      apiEnhance (some b) env (FetchOutcome.threw m) tf re =
        EnhanceResult.failure 500 m none)
    ∧ (∀ (b : EnhanceBody) (env : Env)
        (re : List Nat → Except String (List Nat)) (src : List Nat)
        (m : String),
      jsTruthyStr b.imageUrl = true →
      jsTruthyStr env.CUTOUT_API_KEY = true →
      apiEnhance (some b) env (FetchOutcome.ok src)
          (FetchOutcome.threw m) re =
        EnhanceResult.failure 500 m none) := by
  refine ⟨?_, ?_, ?_, ?_, ?_, ?_, ?_⟩
  · intro b env sf tf re hu
    simp [apiEnhance, hu]
  · intro b env sf tf re hu hk
    simp [apiEnhance, hu, hk]
  · intro b env tf re s t hu hk
    simp [apiEnhance, hu, hk]
  · intro b env re src s t hu hk
    simp [apiEnhance, hu, hk]
  · intro b env re src tbuf m hu hk hre
    simp [apiEnhance, hu, hk, hre]
  · intro b env tf re m hu hk
    simp [apiEnhance, hu, hk]
  · intro b env re src m hu hk
    simp [apiEnhance, hu, hk]

/-- Witness for C2 (amended): each failure domain at a concrete
request — missing `imageUrl`, missing API key, a 404 source response, a
503 transform response, a failed re-encode, a rejected source fetch,
and a rejected transform call. -/
theorem c2_amended_witness :
    apiEnhance (some ⟨none, none, none⟩)
      { SPOTIFY_CLIENT_ID := none, SPOTIFY_CLIENT_SECRET := none,
        CUTOUT_API_KEY := some "key" }
      (FetchOutcome.ok []) (FetchOutcome.ok []) (fun b => Except.ok b) =
      EnhanceResult.failure 400 "Missing imageUrl" none
    ∧ apiEnhance (some ⟨some "https://x/i.jpg", none, none⟩)
      { SPOTIFY_CLIENT_ID := none, SPOTIFY_CLIENT_SECRET := none,
        CUTOUT_API_KEY := none }
      (FetchOutcome.ok []) (FetchOutcome.ok []) (fun b => Except.ok b) =
      EnhanceResult.failure 400 "Missing CUTOUT_API_KEY in .env" none
    ∧ apiEnhance (some ⟨some "https://x/i.jpg", none, none⟩)
      { SPOTIFY_CLIENT_ID := none, SPOTIFY_CLIENT_SECRET := none,
        CUTOUT_API_KEY := some "key" }
      (FetchOutcome.httpErr 404 "nf") (FetchOutcome.ok [])
      (fun b => Except.ok b) =
      EnhanceResult.failure 400 "Failed to fetch source image (404)"
        (some "nf")
    ∧ apiEnhance (some ⟨some "https://x/i.jpg", none, none⟩)
      { SPOTIFY_CLIENT_ID := none, SPOTIFY_CLIENT_SECRET := none,
        CUTOUT_API_KEY := some "key" }
      (FetchOutcome.ok [7]) (FetchOutcome.httpErr 503 "down")
      (fun b => Except.ok b) =
      EnhanceResult.failure 502 "Cutout.pro error: 503" (some "down")
    ∧ apiEnhance (some ⟨some "https://x/i.jpg", none, none⟩)
      { SPOTIFY_CLIENT_ID := none, SPOTIFY_CLIENT_SECRET := none,
        CUTOUT_API_KEY := some "key" }
      (FetchOutcome.ok [7]) (FetchOutcome.ok [9])
      (fun _ => Except.error "Input buffer contains unsupported image format")
      =
      EnhanceResult.failure 500
        "Input buffer contains unsupported image format" none
    ∧ apiEnhance (some ⟨some "https://x/i.jpg", none, none⟩)
      { SPOTIFY_CLIENT_ID := none, SPOTIFY_CLIENT_SECRET := none,
        CUTOUT_API_KEY := some "key" }
      (FetchOutcome.threw "fetch failed") (FetchOutcome.ok [])
      (fun b => Except.ok b) =
      EnhanceResult.failure 500 "fetch failed" none
    ∧ apiEnhance (some ⟨some "https://x/i.jpg", none, none⟩)
      { SPOTIFY_CLIENT_ID := none, SPOTIFY_CLIENT_SECRET := none,
        CUTOUT_API_KEY := some "key" }
      (FetchOutcome.ok [7]) (FetchOutcome.threw "transform fetch failed")
      (fun b => Except.ok b) =
      EnhanceResult.failure 500 "transform fetch failed" none :=
  ⟨c2_amended.1 ⟨none, none, none⟩ _ _ _ _ rfl,
    c2_amended.2.1 ⟨some "https://x/i.jpg", none, none⟩ _ _ _ _ rfl rfl,
    c2_amended.2.2.1 ⟨some "https://x/i.jpg", none, none⟩ _ _ _ 404 "nf"
      rfl rfl,
    c2_amended.2.2.2.1 ⟨some "https://x/i.jpg", none, none⟩ _ _ [7] 503
      "down" rfl rfl,
    c2_amended.2.2.2.2.1 ⟨some "https://x/i.jpg", none, none⟩ _ _ [7] [9]
      "Input buffer contains unsupported image format" rfl rfl rfl,
    c2_amended.2.2.2.2.2.1 ⟨some "https://x/i.jpg", none, none⟩ _ _ _
      "fetch failed" rfl rfl,
    c2_amended.2.2.2.2.2.2 ⟨some "https://x/i.jpg", none, none⟩ _ _ [7]
      "transform fetch failed" rfl rfl⟩

/-! ### Claim C4 -/

/-- Counterexample to C4 as stated: a caller-supplied quality of 0 is
not clamped to the nearest bound 1 — `Number(quality) || 95` treats 0
as falsy, so the successful response is encoded at the default 95. -/
theorem c4_counterexample :
    apiEnhance (some ⟨some "https://x/img.jpg", some 0, none⟩)
      { SPOTIFY_CLIENT_ID := none, SPOTIFY_CLIENT_SECRET := none,
        CUTOUT_API_KEY := some "key" }
      (FetchOutcome.ok [7]) (FetchOutcome.ok [9]) (fun b => Except.ok b) =
      EnhanceResult.binary 200 3000 3000 95 false
    ∧ (95 : Int) ≠ 1 := by
  exact ⟨rfl, by omega⟩

/-- Claim C4 (amended): every successful `POST /api/enhance` response
is encoded at `effectiveQuality` of the caller's quality: a nonzero
supplied value is clamped into [1,100] (101 to 100, negatives to 1)
rather than rejected, while an absent, non-numeric or zero quality
falls back to the default 95 (0 is not clamped to the bound 1). -/
theorem c4_amended :
    (∀ (b : EnhanceBody) (env : Env)
        (re : List Nat → Except String (List Nat))
        (src tbuf out : List Nat),
      jsTruthyStr b.imageUrl = true →
      jsTruthyStr env.CUTOUT_API_KEY = true →
      re tbuf = Except.ok out →
      apiEnhance (some b) env (FetchOutcome.ok src) (FetchOutcome.ok tbuf)
          re =
        EnhanceResult.binary 200 3000 3000 (effectiveQuality b.quality)
          (b.progressive.getD false))
    ∧ (∀ q : Int, q ≠ 0 → effectiveQuality (some q) = max 1 (min 100 q))
    ∧ effectiveQuality none = 95
    ∧ effectiveQuality (some 0) = 95
    ∧ effectiveQuality (some 101) = 100
    ∧ effectiveQuality (some (-7)) = 1 := by
  refine ⟨?_, ?_, rfl, rfl, by decide, by decide⟩
  · intro b env re src tbuf out hu hk hre
    simp [apiEnhance, hu, hk, hre]
  · intro q hq
    simp [effectiveQuality, jsOrInt, hq]

/-- Witness for C4 (amended): a request supplying quality 101 succeeds
with the encoding quality clamped to 100, and `effectiveQuality` clamps
the nonzero value 101 to `max 1 (min 100 101)`. -/
theorem c4_amended_witness :
    apiEnhance (some ⟨some "https://x/img.jpg", some 101, none⟩)
      { SPOTIFY_CLIENT_ID := none, SPOTIFY_CLIENT_SECRET := none,
        CUTOUT_API_KEY := some "key" }
      (FetchOutcome.ok [7]) (FetchOutcome.ok [9]) (fun b => Except.ok b) =
      EnhanceResult.binary 200 3000 3000 (effectiveQuality (some 101)) false
    ∧ effectiveQuality (some 101) = max 1 (min 100 101) :=
  ⟨c4_amended.1 ⟨some "https://x/img.jpg", some 101, none⟩
      { SPOTIFY_CLIENT_ID := none, SPOTIFY_CLIENT_SECRET := none,
        CUTOUT_API_KEY := some "key" }
      (fun b => Except.ok b) [7] [9] [9] rfl rfl rfl,
    c4_amended.2.1 101 (by omega)⟩

end SpotifyArtGetter
